import Mathlib

/-!
Verification of the inventory record service (`inventory_lambda.py`).

The development shallowly embeds the two inventory lambda modules:
* namespace `Lambda` models `src/inventory_lambda.py` (the field-patch
  stock-update variant plus the request normalizer/router);
* namespace `LambdaBuild` models
  `src/.aws-sam/build/InventoryManagementFunction/inventory_lambda.py`
  (the checking stock-update variant: fetch first, non-negativity guard,
  reorder-threshold warning).

Conventions of the embedding:
* JSON / DynamoDB scalar values are `Val` (strings, exact decimals as `ℚ`,
  booleans, null).  Python `Decimal(str(x))` is exact for every numeral the
  claims exercise, so the decimal coercion is the identity on `Val.num`.
  String-encoded numerics and nested payload values are outside the model.
* Dicts are association lists `List (String × α)` read by `aget` (first
  binding wins) and written by `aset` (replace-in-place or append), matching
  Python dict insertion-order semantics.
* `datetime.now().isoformat()` is passed in as an explicit `now : String`.
* Response bodies are kept structured (`Body`); the `json.dumps` /
  `DecimalEncoder` serialization to text is float-based and is not modelled.
* Exceptions that escape to the top-level handler are modelled as the 500
  response that handler produces.
-/

inductive Val where
  | str : String → Val
  | num : ℚ → Val
  | bool : Bool → Val
  | null : Val
deriving DecidableEq, Repr

/-- Association-list lookup: the model of `d[k]` / `k in d` on Python dicts. -/
def aget {α : Type} : List (String × α) → String → Option α
  | [], _ => none
  | (k', v') :: rest, k => if k' = k then some v' else aget rest k

/-- Association-list update: the model of `d[k] = v` on Python dicts
(replaces the existing binding in place, else appends). -/
def aset {α : Type} : List (String × α) → String → α → List (String × α)
  | [], k, v => [(k, v)]
  | (k', v') :: rest, k, v => if k' = k then (k, v) :: rest else (k', v') :: aset rest k v

abbrev Obj := List (String × Val)

/-- Python truthiness of a scalar value. -/
def truthyV : Val → Bool
  | Val.str s => s ≠ ""
  | Val.num q => q ≠ 0
  | Val.bool b => b
  | Val.null => false

/-- Python truthiness of `d.get(k)` (missing keys are falsy). -/
def truthyO : Option Val → Bool
  | none => false
  | some v => truthyV v

/-- The model of `params.get(k)` used in `is None` tests: a stored JSON
null is indistinguishable from an absent key. -/
def pgetN (o : Obj) (k : String) : Option Val :=
  match aget o k with
  | some Val.null => none
  | x => x

/-- Rendering of an exact decimal inside a message string.  The claims never
inspect rendered digits, only which values a message carries. -/
def ratStr (q : ℚ) : String :=
  if q.den = 1 then toString q.num else toString q.num ++ "/" ++ toString q.den

/-- Rendering of a scalar value inside an f-string message. -/
def valStr : Val → String
  | Val.str s => s
  | Val.num q => ratStr q
  | Val.bool b => if b then "True" else "False"
  | Val.null => "None"

/-- The add-item coercion `Decimal(str(x))` applied when
`isinstance(x, (int, float))`: exact (identity) on the modelled numerals,
identity on strings and null (not coerced).  Booleans, for which the
coercion raises, are rejected by the caller before this map runs. -/
def decimalizeVal : Val → Val
  | Val.num q => Val.num q
  | v => v

/-- Key values DynamoDB accepts: strings (nonempty — an empty string key
value is a ValidationException) and numbers; anything else raises a client
error at the store call. -/
def validKey : Val → Bool
  | Val.str s => s ≠ ""
  | Val.num _ => true
  | _ => false

/-- The numeric value of a digit run. -/
def digitsToNat (ds : List Char) : Nat :=
  ds.foldl (fun n c => n * 10 + (c.toNat - 48)) 0

/-- A plain decimal numeral as accepted by Python `Decimal(str)`: optional
sign, digits with an optional fractional part and an optional exponent.
Special forms (`Infinity`, `NaN`, underscores, surrounding whitespace) are
outside the model. -/
def decOfString (s : String) : Option ℚ :=
  let cs := s.toList
  let (neg, cs1) :=
    match cs with
    | '-' :: rest => (true, rest)
    | '+' :: rest => (false, rest)
    | _ => (false, cs)
  let intPart := cs1.takeWhile Char.isDigit
  let rest1 := cs1.dropWhile Char.isDigit
  let (fracPart, rest2) :=
    match rest1 with
    | '.' :: r => (r.takeWhile Char.isDigit, r.dropWhile Char.isDigit)
    | _ => ([], rest1)
  let expo : Option Int :=
    match rest2 with
    | [] => some 0
    | c :: r3 =>
      if c = 'e' ∨ c = 'E' then
        let (eneg, r4) :=
          match r3 with
          | '-' :: r => (true, r)
          | '+' :: r => (false, r)
          | _ => (false, r3)
        let eds := r4.takeWhile Char.isDigit
        let r5 := r4.dropWhile Char.isDigit
        if eds ≠ [] ∧ r5 = [] then
          some (if eneg then -(digitsToNat eds : Int) else (digitsToNat eds : Int))
        else none
      else none
  if intPart = [] ∧ fracPart = [] then none
  else
    match expo with
    | none => none
    | some e =>
      let mantissa : ℚ := (digitsToNat (intPart ++ fracPart) : ℚ) / ((10 : ℚ) ^ fracPart.length)
      let mag : ℚ := if 0 ≤ e then mantissa * (10 : ℚ) ^ e.toNat else mantissa / (10 : ℚ) ^ (-e).toNat
      some (if neg then -mag else mag)

/-- `Decimal(str(v))` as a fallible conversion: exact on numbers, a parse
for strings, and failing (`InvalidOperation`) on everything else — `str` of
a boolean or null has no valid decimal form. -/
def decimalOfVal : Val → Option ℚ
  | Val.num q => some q
  | Val.str s => decOfString s
  | _ => none

/-- Whether a stored attribute is absent or holds a number — the regime in
which the reorder-threshold comparison cannot raise. -/
def numericOrAbsent : Option Val → Bool
  | none => true
  | some (Val.num _) => true
  | _ => false

/-- Whether a payload carries a boolean-valued field: Python's `bool` is an
`int`, so the add-item coercion loop feeds it to `Decimal(str(...))`, which
raises before the store call. -/
def hasBoolField (o : Obj) : Bool :=
  o.any (fun kv => match kv.2 with | Val.bool _ => true | _ => false)

/-- Structured response-body values: scalars, a nested item, or a list of
items. -/
inductive BVal where
  | v : Val → BVal
  | obj : Obj → BVal
  | arr : List Obj → BVal
deriving DecidableEq, Repr

abbrev Body := List (String × BVal)

/-- Shorthand for a string-valued body field. -/
def bstr (s : String) : BVal := BVal.v (Val.str s)

/-- The standardized response envelope produced by `create_response`. -/
structure Resp where
  statusCode : Nat
  headers : List (String × String)
  body : Body
deriving DecidableEq, Repr

/-- `create_response(status_code, body)`: statusCode, the fixed CORS headers,
and the (structurally kept) body. -/
def create_response (statusCode : Nat) (body : Body) : Resp :=
  ⟨statusCode, [("Content-Type", "application/json"), ("Access-Control-Allow-Origin", "*")], body⟩

/-- A 500 response as produced when an exception is caught (locally or by the
top-level handler); the exact exception text is not modelled. -/
def resp500 (msg : String) : Resp :=
  create_response 500 [("error", bstr msg)]

/-- A DynamoDB table: a list of items keyed by their `product_id` attribute. -/
abbrev Table := List Obj

/-- `table.get_item(Key=\x7b'product_id': pid\x7d)`: first item whose
`product_id` attribute equals the key. -/
def getItem : Table → Val → Option Obj
  | [], _ => none
  | o :: rest, pid => if aget o "product_id" = some pid then some o else getItem rest pid

/-- `table.put_item(Item=it)` for an item keyed `pid`: replace the stored
item with that key, else append. -/
def putItem : Table → Val → Obj → Table
  | [], _, it => [it]
  | o :: rest, pid, it => if aget o "product_id" = some pid then it :: rest else o :: putItem rest pid it

/-- `table.delete_item(Key=...)`: remove the stored item with that key. -/
def deleteItem : Table → Val → Table
  | [], _ => []
  | o :: rest, pid => if aget o "product_id" = some pid then rest else o :: deleteItem rest pid

/-- `table.update_item` with a pure `SET a = :v, ...` expression and
`ReturnValues="ALL_NEW"`: upsert starting from the stored item (or the bare
key), returning the new table and the new item. -/
def updateItemSet (t : Table) (pid : Val) (changes : List (String × Val)) : Table × Obj :=
  let base := (getItem t pid).getD [("product_id", pid)]
  let newIt := changes.foldl (fun o c => aset o c.1 c.2) base
  (putItem t pid newIt, newIt)

/-- One assignment of an `UpdateExpression`: `a = a + :v` or `a = :v`. -/
inductive Assign where
  | inc : String → ℚ → Assign
  | set : String → Val → Assign
deriving DecidableEq, Repr

/-- Apply one assignment to an item; `a = a + :v` fails (ValidationException)
unless the attribute currently holds a number. -/
def applyAssign (o : Obj) : Assign → Option Obj
  | Assign.set k v => some (aset o k v)
  | Assign.inc k v =>
    match aget o k with
    | some (Val.num x) => some (aset o k (Val.num (x + v)))
    | _ => none

/-- `table.update_item` with a general `SET` expression: upsert, atomic (any
failing assignment fails the whole update with no write). -/
def updateItemExpr (t : Table) (pid : Val) (assigns : List Assign) : Option (Table × Obj) :=
  let base := (getItem t pid).getD [("product_id", pid)]
  match assigns.foldlM applyAssign base with
  | some newIt => some (putItem t pid newIt, newIt)
  | none => none

/-- The stock attribute currently stored under a key, if any. -/
def storedStock (t : Table) (pid : Val) : Option Val :=
  (getItem t pid).bind (fun it => aget it "stock_quantity")

/-- The value of any stored attribute under a key, if any. -/
def storedAttr (t : Table) (pid : Val) (attr : String) : Option Val :=
  (getItem t pid).bind (fun it => aget it attr)

namespace LambdaBuild

/-- `update_stock_quantity(table, params)` from the checking variant
(`.aws-sam/build/InventoryManagementFunction/inventory_lambda.py`):
validate `product_id`, resolve the effective delta from `stock_change` or
`new_quantity`, fetch the item (404 if absent), reject a negative resulting
stock (400, no write), otherwise write the new stock and `updated_at` and
attach a reorder-threshold warning to the success body when the (truthy)
threshold is reached.  A truthy stored threshold with no valid decimal form
makes `Decimal(str(threshold))` raise after the committed write: the
mutation stands and the top-level handler answers 500. -/
def update_stock_quantity (now : String) (table : Table) (params : Obj) : Table × Resp :=
  match aget params "product_id" with
  | none => (table, create_response 400 [("error", bstr "Missing product_id for stock update")])
  | some pid =>
    if ¬ truthyV pid then
      (table, create_response 400 [("error", bstr "Missing product_id for stock update")])
    else
      -- resolve the delta; `delta` receives the fetched current stock
      let afterFetch : (ℚ → ℚ) → Table × Resp := fun delta =>
        if ¬ validKey pid then
          (table, resp500 "invalid key type for product_id")
        else
        match getItem table pid with
        | none =>
          (table, create_response 404 [("error", bstr ("Item with product_id " ++ valStr pid ++ " not found"))])
        | some item =>
          match (aget item "stock_quantity").getD (Val.num 0) with
          | Val.num current_stock =>
            let stock_change := delta current_stock
            let new_stock := current_stock + stock_change
            if new_stock < 0 then
              (table, create_response 400 [("error", bstr ("Cannot reduce stock below zero. Current stock: " ++ ratStr current_stock ++ ", Requested change: " ++ ratStr stock_change))])
            else
              let upd := updateItemSet table pid [("stock_quantity", Val.num new_stock), ("updated_at", Val.str now)]
              let finish : Option String → Table × Resp := fun warning =>
                let result : Body :=
                  [("message", bstr "Stock quantity updated successfully"),
                   ("product_id", BVal.v pid),
                   ("previous_stock", BVal.v (Val.num current_stock)),
                   ("stock_change", BVal.v (Val.num stock_change)),
                   ("new_stock", BVal.v (Val.num new_stock)),
                   ("updated_item", BVal.obj upd.2)]
                let result := match warning with
                  | some w => result ++ [("warning", bstr w)]
                  | none => result
                (upd.1, create_response 200 result)
              let threshold := (aget item "reorder_threshold").getD (Val.num 0)
              -- `if threshold and new_stock <= Decimal(str(threshold))`: truthiness
              -- first; a truthy threshold with no valid decimal form raises
              -- InvalidOperation (not a ClientError) inside the try, surfacing as
              -- the top-level 500 — after the already committed write
              if truthyV threshold then
                match decimalOfVal threshold with
                | none => (upd.1, resp500 "invalid decimal form for reorder_threshold")
                | some tq =>
                  finish (if new_stock ≤ tq then
                    some ("WARNING: Stock level (" ++ ratStr new_stock ++ ") is at or below reorder threshold (" ++ ratStr tq ++ ")")
                  else none)
              else finish none
          | _ => (table, resp500 "unsupported stored stock type")
      match pgetN params "stock_change" with
      | some (Val.num d) => afterFetch (fun _ => d)
      | some _ => (table, resp500 "unsupported stock_change type")
      | none =>
        match pgetN params "new_quantity" with
        | none => (table, create_response 400 [("error", bstr "Missing stock_change or new_quantity for stock update")])
        | some (Val.num q) => afterFetch (fun current_stock => q - current_stock)
        | some _ => (table, resp500 "unsupported new_quantity type")

end LambdaBuild

namespace Lambda

/-- One pass of the other-fields loop of the field-patch variant: the
assignment contributed by `field` when it is present and not in
`[None, '']`; `price` is coerced to decimal, `name` goes through an
attribute-name alias with the same effect. -/
def mkField (params : Obj) (f : String) : Option Assign :=
  match aget params f with
  | none => none
  | some v =>
    if v = Val.null ∨ v = Val.str "" then none
    else some (Assign.set f (if f = "price" then decimalizeVal v else v))

/-- `update_stock_quantity(table, params)` from `src/inventory_lambda.py`
(the field-patch variant): build a single `SET` expression from the stock
key (an increment for `stock_change`, an absolute set for `new_quantity`)
plus any of `name`/`category`/`price`/`description`, reject an empty
expression (400), always append `updated_at`, and issue one unconditional
`update_item` — no fetch, no existence check and no non-negativity check. -/
def update_stock_quantity (now : String) (table : Table) (params : Obj) : Table × Resp :=
  let go : Option Assign → Table × Resp := fun stockA =>
    let update_expression :=
      (match stockA with | some a => [a] | none => [])
        ++ (["name", "category", "price", "description"].filterMap (mkField params))
    if update_expression = [] then
      (table, create_response 400 [("error", bstr "No fields to update")])
    else
      let update_expression := update_expression ++ [Assign.set "updated_at" (Val.str now)]
      match aget params "product_id" with
      | some pid =>
        if validKey pid then
          match updateItemExpr table pid update_expression with
          | some r => (r.1, create_response 200 [("message", bstr "Item updated successfully")])
          | none => (table, resp500 "The document path provided in the update expression is invalid for update")
        else (table, resp500 "invalid key type for product_id")
      | none => (table, resp500 "missing key product_id")
  match pgetN params "stock_change" with
  | some (Val.num d) => go (some (Assign.inc "stock_quantity" d))
  | some _ => (table, resp500 "unsupported stock_change type")
  | none =>
    match pgetN params "new_quantity" with
    | some (Val.num q) => go (some (Assign.set "stock_quantity" (Val.num q)))
    | some _ => (table, resp500 "unsupported new_quantity type")
    | none => go none

/-- `add_inventory_item(table, item)` (identical in both modules): reject an
empty payload, validate the four required fields, coerce numerics to
decimal (a boolean field makes that coercion raise: 500, no write), stamp
`created_at`/`updated_at`, 409 if the key already exists, else put the item
and return 201. -/
def add_inventory_item (now : String) (table : Table) (item : Obj) : Table × Resp :=
  if item = [] then
    (table, create_response 400 [("error", bstr "Missing item data for adding inventory item")])
  else
    let missing_fields :=
      ["product_id", "name", "price", "stock_quantity"].filter (fun f => (aget item f).isNone)
    if missing_fields ≠ [] then
      (table, create_response 400 [("error", bstr ("Missing required fields: " ++ String.intercalate ", " missing_fields))])
    else if hasBoolField item then
      -- `isinstance(True, (int, float))` holds and `Decimal(str(True))` has no
      -- valid decimal form: the coercion loop raises before the try, so the
      -- top-level handler answers 500 and nothing is written
      (table, resp500 "invalid decimal form for a boolean field")
    else
      let item := item.map (fun kv => (kv.1, decimalizeVal kv.2))
      let item := aset (aset item "created_at" (Val.str now)) "updated_at" (Val.str now)
      match aget item "product_id" with
      | some pid =>
        if validKey pid then
          match getItem table pid with
          | some _ =>
            (table, create_response 409 [("error", bstr ("Item with product_id " ++ valStr pid ++ " already exists"))])
          | none =>
            (putItem table pid item,
             create_response 201 [("message", bstr "Inventory item added successfully"), ("item", BVal.obj item)])
        else (table, resp500 "invalid key type for product_id")
      | none => (table, resp500 "missing key product_id")  -- unreachable: product_id is a validated required field

/-- `get_inventory_item(table, params)`: 400 without a truthy `product_id`,
404 when absent, else 200 with the item. -/
def get_inventory_item (table : Table) (params : Obj) : Resp :=
  match aget params "product_id" with
  | none => create_response 400 [("error", bstr "Missing product_id for getting inventory item")]
  | some pid =>
    if ¬ truthyV pid then
      create_response 400 [("error", bstr "Missing product_id for getting inventory item")]
    else if ¬ validKey pid then resp500 "invalid key type for product_id"
    else
      match getItem table pid with
      | none => create_response 404 [("error", bstr ("Item with product_id " ++ valStr pid ++ " not found"))]
      | some item => create_response 200 [("item", BVal.obj item)]

/-- `int(max_items)` as used for the scan `Limit`: truncation for decimals,
string parse for digit strings, `int(True) = 1`; unconvertible values are
ignored by the caller. -/
def intOfVal : Val → Option Int
  | Val.num q => some (Int.tdiv q.num q.den)
  | Val.str s => s.toInt?
  | Val.bool _ => some 1
  | Val.null => none

/-- The `table.scan(**scan_kwargs)` call of `list_inventory_items` plus its
result assembly: the limit bounds the items *scanned* (the filter applies
afterwards) and a truncated scan reports `last_evaluated_key`/`has_more`. -/
def listScan (table : Table) (category : Option Val) (lim : Option Nat) : Resp :=
    let scanned := match lim with | some n => table.take n | none => table
    let items :=
      match category with
      | some cv => scanned.filter (fun o => aget o "category" = some cv)
      | none => scanned
    let has_more : Bool := match lim with | some n => decide (n < table.length) | none => false
    let result : Body :=
      [("items", BVal.arr items),
       ("count", BVal.v (Val.num items.length)),
       ("scanned_count", BVal.v (Val.num scanned.length))]
    let result :=
      if has_more then
        result ++ [("last_evaluated_key", BVal.obj ((scanned.getLast?).elim [] (fun o => [("product_id", (aget o "product_id").getD Val.null)]))),
                   ("has_more", BVal.v (Val.bool true))]
      else result
    create_response 200 result

/-- `list_inventory_items(table, params)`: scan with an optional category
equality filter and an optional `Limit` from `max_items` (unconvertible
values are ignored); a nonpositive limit is a store-side validation error
caught as 500. -/
def list_inventory_items (table : Table) (params : Obj) : Resp :=
  let category := aget params "category"
  let max_items := aget params "max_items"
  let limit : Option Int :=
    match max_items with
    | some v => if truthyV v then intOfVal v else none
    | none => none
  let categoryF : Option Val :=
    match category with
    | some cv => if truthyV cv then some cv else none
    | none => none
  match limit with
  | some l =>
    if l ≤ 0 then resp500 "Limit must be greater than or equal to 1"
    else listScan table categoryF (some l.toNat)
  | none => listScan table categoryF none

/-- `remove_inventory_item(table, params)`: 400 without a truthy
`product_id`, 404 when absent, else delete and return the deleted item. -/
def remove_inventory_item (table : Table) (params : Obj) : Table × Resp :=
  match aget params "product_id" with
  | none => (table, create_response 400 [("error", bstr "Missing product_id for removing inventory item")])
  | some pid =>
    if ¬ truthyV pid then
      (table, create_response 400 [("error", bstr "Missing product_id for removing inventory item")])
    else if ¬ validKey pid then (table, resp500 "invalid key type for product_id")
    else
      match getItem table pid with
      | none => (table, create_response 404 [("error", bstr ("Item with product_id " ++ valStr pid ++ " not found"))])
      | some item =>
        (deleteItem table pid,
         create_response 200 [("message", bstr "Inventory item removed successfully"), ("deleted_item", BVal.obj item)])

end Lambda

/-- Python `s.split('/')` over the characters of a path. -/
def splitCharsAux : List Char → List Char → List String
  | [], acc => [String.mk acc.reverse]
  | c :: rest, acc =>
    if c = '/' then String.mk acc.reverse :: splitCharsAux rest []
    else splitCharsAux rest (c :: acc)

/-- Python `s.strip('/')`: drop leading and trailing slashes. -/
def stripSlashes (s : String) : String :=
  String.mk (((s.toList.dropWhile (fun c => c = '/')).reverse.dropWhile (fun c => c = '/')).reverse)

/-- `resource_path.strip('/').split('/')`. -/
def pathParts (s : String) : List String :=
  splitCharsAux (stripSlashes s).toList []

/-- The raw `body` section of a gateway event: either a string holding the
JSON of an object (represented by its parse) or an already-structured dict. -/
inductive BodyV where
  | jstr : Obj → BodyV
  | dict : Obj → BodyV
deriving DecidableEq, Repr

/-- A gateway-shape request (`httpMethod` present). Only well-formed JSON
string bodies are modelled. -/
structure Event where
  httpMethod : String
  path : String
  pathParameters : Option Obj
  queryStringParameters : Option Obj
  body : Option BodyV
deriving DecidableEq, Repr

/-- The DynamoDB world: the table each name resolves to. -/
abbrev World := String → Table

namespace Lambda

/-- `lambda_handler(event, context)` for gateway-shape events
(`src/inventory_lambda.py`, lines 44-137): extract the item identifier from
`pathParameters` or the last path segment, parse the body, resolve the table
name from the body with the `INVENTORY_TABLE` environment fallback
(`env_table`), assemble `params` from the table name and the body only, and
route on the HTTP method.  The direct-invocation branch (lines 100-108)
shares the same routing block and is not separately modelled. -/
def lambda_handler (now : String) (world : World) (env_table : Option String) (event : Event) : World × Resp :=
  let pp := (event.pathParameters).getD []
  let product_id : Option Val :=
    if pp ≠ [] then aget pp "product_id"
    else
      let parts := pathParts event.path
      if parts.length > 1 then (parts.getLast?).map Val.str else none
  let query_params := (event.queryStringParameters).getD []  -- parsed (source line 70) but never used below
  let body : Obj :=
    match event.body with
    | some (BodyV.jstr o) => o
    | some (BodyV.dict o) => o
    | none => []
  let tn0 := aget body "table_name"
  let tn1 := if truthyO tn0 then tn0 else env_table.map Val.str
  if ¬ truthyO tn1 then
    (world, create_response 400 [("error", bstr "Missing table_name parameter")])
  else
    match tn1 with
    | some (Val.str table_name) =>
      let table := world table_name
      let params := body.foldl (fun acc kv => aset acc kv.1 kv.2) [("table_name", Val.str table_name)]
      let params :=
        match product_id with
        | some pid => if truthyV pid then aset params "product_id" pid else params
        | none => params
      let put : Table → World := fun t2 => fun n => if n = table_name then t2 else world n
      if event.httpMethod = "GET" then
        if truthyO product_id then (world, get_inventory_item table params)
        else (world, list_inventory_items table params)
      else if event.httpMethod = "POST" then
        match event.body with
        | some (BodyV.jstr item) =>
          let r := add_inventory_item now table item
          (put r.1, r.2)
        | _ => (world, resp500 "the POST body is not a JSON string")  -- json.loads failure, caught by the handler
      else if event.httpMethod = "PUT" then
        let r := update_stock_quantity now table params
        (put r.1, r.2)
      else if event.httpMethod = "DELETE" then
        let r := remove_inventory_item table params
        (put r.1, r.2)
      else if event.httpMethod = "OPTIONS" then
        (world, create_response 200 [("message", bstr "CORS preflight request handled successfully")])
      else
        (world, create_response 405 [("error", bstr "Method not allowed")])
    | _ => (world, resp500 "table name must be a string")  -- boto3 rejects non-string table names
end Lambda

/-- The frame condition of a pure stock update: under key `pid` the table
`t2` stores an item whose `stock_quantity` is `n`, whose `updated_at` is the
fresh timestamp, and whose every other attribute — `product_id`, `name`,
`price`, `category`, `description`, `reorder_threshold` and `created_at` —
agrees with the previously stored item `old`. -/
def fieldsPreserved (t2 : Table) (pid : Val) (old : Obj) (n : ℚ) (now : String) : Prop :=
  match getItem t2 pid with
  | none => False
  | some it =>
    aget it "stock_quantity" = some (Val.num n)
    ∧ aget it "updated_at" = some (Val.str now)
    ∧ aget it "product_id" = aget old "product_id"
    ∧ aget it "name" = aget old "name"
    ∧ aget it "price" = aget old "price"
    ∧ aget it "category" = aget old "category"
    ∧ aget it "description" = aget old "description"
    ∧ aget it "reorder_threshold" = aget old "reorder_threshold"
    ∧ aget it "created_at" = aget old "created_at"

/-- A stored apple item with stock 10, as in the spec scenario. -/
def demoItem : Obj :=
  [("product_id", Val.str "apple"), ("name", Val.str "Apple"),
   ("price", Val.num 3), ("stock_quantity", Val.num 10)]

/-- A one-item table holding `demoItem`. -/
def demoTable : Table := [demoItem]

/-- The apple item with `reorder_threshold` set to `0`. -/
def demoItemThr0 : Obj :=
  [("product_id", Val.str "apple"), ("name", Val.str "Apple"),
   ("price", Val.num 3), ("stock_quantity", Val.num 10), ("reorder_threshold", Val.num 0)]

/-- A one-item table holding `demoItemThr0`. -/
def demoTableThr0 : Table := [demoItemThr0]

/-- The apple item with `reorder_threshold` set to `5`. -/
def demoItemThr5 : Obj :=
  [("product_id", Val.str "apple"), ("name", Val.str "Apple"),
   ("price", Val.num 3), ("stock_quantity", Val.num 10), ("reorder_threshold", Val.num 5)]

/-- A one-item table holding `demoItemThr5`. -/
def demoTableThr5 : Table := [demoItemThr5]

/-- A world in which every table name resolves to `demoTable`. -/
def demoWorld : World := fun _ => demoTable

/-- A PATCH request shaped like the repository test event, body included. -/
def demoEventPatch : Event :=
  ⟨"PATCH", "/inventory/apple", none, none,
   some (BodyV.jstr [("table_name", Val.str "InventoryTable"), ("product_id", Val.str "apple"), ("new_quantity", Val.num 15)])⟩

/-- The result of a successful run of the checking `update_stock_quantity`
on a stored `item` with current stock `c` and resulting stock `n`: the item
is rewritten with the new stock and timestamp, and the success body carries
the previous stock, the applied delta, the new stock, the updated record and
the optional threshold warning. -/
def buildSuccess (now : String) (t : Table) (pid : Val) (item : Obj) (c n : ℚ) : Table × Resp :=
  let newIt := aset (aset item "stock_quantity" (Val.num n)) "updated_at" (Val.str now)
  let warning : Option String :=
    match (aget item "reorder_threshold").getD (Val.num 0) with
    | Val.num t =>
      if t ≠ 0 ∧ n ≤ t then
        some ("WARNING: Stock level (" ++ ratStr n ++ ") is at or below reorder threshold (" ++ ratStr t ++ ")")
      else none
    | _ => none
  let result : Body :=
    [("message", bstr "Stock quantity updated successfully"),
     ("product_id", BVal.v pid),
     ("previous_stock", BVal.v (Val.num c)),
     ("stock_change", BVal.v (Val.num (n - c))),
     ("new_stock", BVal.v (Val.num n)),
     ("updated_item", BVal.obj newIt)]
  let result := match warning with
    | some w => result ++ [("warning", bstr w)]
    | none => result
  (putItem t pid newIt, create_response 200 result)

theorem aget_aset_self {α : Type} (o : List (String × α)) (k : String) (v : α) :
    aget (aset o k v) k = some v := by
  induction o with
  | nil => simp [aset, aget]
  | cons kv rest ih =>
    by_cases h : kv.1 = k
    · simp [aset, aget, h]
    · simp [aset, aget, h, ih]

theorem aget_aset_ne {α : Type} (o : List (String × α)) (k k' : String) (v : α)
    (h : k' ≠ k) : aget (aset o k v) k' = aget o k' := by
  induction o with
  | nil => simp [aset, aget, Ne.symm h]
  | cons kv rest ih =>
    obtain ⟨k0, v0⟩ := kv
    by_cases hk : k0 = k
    · simp [aset, aget, hk, Ne.symm h]
    · simp [aset, aget, hk, ih]

theorem aget_map_decimalize (o : Obj) (k : String) :
    aget (o.map (fun kv => (kv.1, decimalizeVal kv.2))) k = (aget o k).map decimalizeVal := by
  induction o with
  | nil => simp [aget]
  | cons kv rest ih =>
    by_cases h : kv.1 = k
    · simp [aget, h]
    · simp [aget, h, ih]

theorem aget_ne_nil {α : Type} {o : List (String × α)} {k : String} {v : α}
    (h : aget o k = some v) : o ≠ [] := by
  intro he
  subst he
  simp [aget] at h

theorem getItem_key {t : Table} {pid : Val} {item : Obj}
    (h : getItem t pid = some item) : aget item "product_id" = some pid := by
  induction t with
  | nil => simp [getItem] at h
  | cons o rest ih =>
    by_cases ho : aget o "product_id" = some pid
    · simp [getItem, ho] at h
      subst h
      exact ho
    · simp [getItem, ho] at h
      exact ih h

theorem getItem_putItem_self {t : Table} {pid : Val} {it : Obj}
    (hit : aget it "product_id" = some pid) : getItem (putItem t pid it) pid = some it := by
  induction t with
  | nil => simp [putItem, getItem, hit]
  | cons o rest ih =>
    by_cases ho : aget o "product_id" = some pid
    · simp [putItem, getItem, ho, hit]
    · simp [putItem, getItem, ho, ih]

theorem putItem_not_found {t : Table} {pid : Val} (it : Obj)
    (h : getItem t pid = none) : putItem t pid it = t ++ [it] := by
  induction t with
  | nil => simp [putItem]
  | cons o rest ih =>
    by_cases ho : aget o "product_id" = some pid
    · simp [getItem, ho] at h
    · simp [getItem, ho] at h
      simp [putItem, ho, ih h]

theorem getItem_append_right {t1 t2 : Table} {pid : Val}
    (h : getItem t1 pid = none) : getItem (t1 ++ t2) pid = getItem t2 pid := by
  induction t1 with
  | nil => simp
  | cons o rest ih =>
    by_cases ho : aget o "product_id" = some pid
    · simp [getItem, ho] at h
    · simp [getItem, ho] at h
      simp [getItem, ho, ih h]

theorem build_success_run (now : String) (t : Table) (p : Obj) (pid : Val) (item : Obj) (c n : ℚ)
    (hpp : aget p "product_id" = some pid) (hpt : truthyV pid = true) (hk : validKey pid = true)
    (hfind : getItem t pid = some item)
    (hstock : aget item "stock_quantity" = some (Val.num c))
    (hthr : numericOrAbsent (aget item "reorder_threshold") = true)
    (hdelta : pgetN p "stock_change" = some (Val.num (n - c))
      ∨ (pgetN p "stock_change" = none ∧ pgetN p "new_quantity" = some (Val.num n)))
    (hnn : 0 ≤ n) :
    LambdaBuild.update_stock_quantity now t p = buildSuccess now t pid item c n := by
  have hn : c + (n - c) = n := by ring
  have hlt : ¬ n < 0 := not_lt.2 hnn
  obtain ⟨τ, hτ⟩ : ∃ τ : ℚ, (aget item "reorder_threshold").getD (Val.num 0) = Val.num τ := by
    cases hh : aget item "reorder_threshold" with
    | none => exact ⟨0, rfl⟩
    | some v =>
      cases v with
      | num q => exact ⟨q, rfl⟩
      | str s => rw [hh] at hthr; simp [numericOrAbsent] at hthr
      | bool b => rw [hh] at hthr; simp [numericOrAbsent] at hthr
      | null => rw [hh] at hthr; simp [numericOrAbsent] at hthr
  rcases hdelta with h | ⟨h1, h2⟩
  · by_cases ht0 : τ = 0
    · have htt : truthyV (Val.num 0) = false := by simp [truthyV]
      simp [LambdaBuild.update_stock_quantity, buildSuccess, updateItemSet, decimalOfVal,
        hpp, hpt, hk, h, hfind, hstock, hn, hlt, hτ, htt, ht0]
    · have htt : truthyV (Val.num τ) = true := by simp [truthyV, ht0]
      by_cases hw : n ≤ τ <;>
        simp [LambdaBuild.update_stock_quantity, buildSuccess, updateItemSet, decimalOfVal,
          hpp, hpt, hk, h, hfind, hstock, hn, hlt, hτ, htt, ht0, hw]
  · by_cases ht0 : τ = 0
    · have htt : truthyV (Val.num 0) = false := by simp [truthyV]
      simp [LambdaBuild.update_stock_quantity, buildSuccess, updateItemSet, decimalOfVal,
        hpp, hpt, hk, h1, h2, hfind, hstock, hn, hlt, hτ, htt, ht0]
    · have htt : truthyV (Val.num τ) = true := by simp [truthyV, ht0]
      by_cases hw : n ≤ τ <;>
        simp [LambdaBuild.update_stock_quantity, buildSuccess, updateItemSet, decimalOfVal,
          hpp, hpt, hk, h1, h2, hfind, hstock, hn, hlt, hτ, htt, ht0, hw]

theorem build_negative_run (now : String) (t : Table) (p : Obj) (pid : Val) (item : Obj) (c n : ℚ)
    (hpp : aget p "product_id" = some pid) (hpt : truthyV pid = true) (hk : validKey pid = true)
    (hfind : getItem t pid = some item)
    (hstock : aget item "stock_quantity" = some (Val.num c))
    (hdelta : pgetN p "stock_change" = some (Val.num (n - c))
      ∨ (pgetN p "stock_change" = none ∧ pgetN p "new_quantity" = some (Val.num n)))
    (hneg : n < 0) :
    LambdaBuild.update_stock_quantity now t p
      = (t, create_response 400 [("error", bstr ("Cannot reduce stock below zero. Current stock: "
          ++ ratStr c ++ ", Requested change: " ++ ratStr (n - c)))]) := by
  have hn : c + (n - c) = n := by ring
  rcases hdelta with h | ⟨h1, h2⟩
  · simp [LambdaBuild.update_stock_quantity, hpp, hpt, hk, h, hfind, hstock, hn, hneg]
  · simp [LambdaBuild.update_stock_quantity, hpp, hpt, hk, h1, h2, hfind, hstock, hn, hneg]

theorem build_missing_run (now : String) (t : Table) (p : Obj) (pid : Val)
    (hpp : aget p "product_id" = some pid) (hpt : truthyV pid = true)
    (h1 : pgetN p "stock_change" = none) (h2 : pgetN p "new_quantity" = none) :
    LambdaBuild.update_stock_quantity now t p
      = (t, create_response 400 [("error", bstr "Missing stock_change or new_quantity for stock update")]) := by
  simp [LambdaBuild.update_stock_quantity, hpp, hpt, h1, h2]

theorem root_stock_change_run (now : String) (t : Table) (pid : Val) (item : Obj) (c d : ℚ)
    (hfind : getItem t pid = some item)
    (hstock : aget item "stock_quantity" = some (Val.num c))
    (hk : validKey pid = true) :
    Lambda.update_stock_quantity now t [("product_id", pid), ("stock_change", Val.num d)]
      = (putItem t pid (aset (aset item "stock_quantity" (Val.num (c + d))) "updated_at" (Val.str now)),
         create_response 200 [("message", bstr "Item updated successfully")]) := by
  simp [Lambda.update_stock_quantity, Lambda.mkField, pgetN, aget, updateItemExpr, applyAssign,
    hfind, hstock, hk]

theorem root_new_quantity_run (now : String) (t : Table) (pid : Val) (item : Obj) (q : ℚ)
    (hfind : getItem t pid = some item)
    (hk : validKey pid = true) :
    Lambda.update_stock_quantity now t [("product_id", pid), ("new_quantity", Val.num q)]
      = (putItem t pid (aset (aset item "stock_quantity" (Val.num q)) "updated_at" (Val.str now)),
         create_response 200 [("message", bstr "Item updated successfully")]) := by
  simp [Lambda.update_stock_quantity, Lambda.mkField, pgetN, aget, updateItemExpr, applyAssign,
    hfind, hk]

theorem root_nofields_run (now : String) (t : Table) (p : Obj)
    (h1 : pgetN p "stock_change" = none) (h2 : pgetN p "new_quantity" = none)
    (hf : ["name", "category", "price", "description"].filterMap (Lambda.mkField p) = []) :
    Lambda.update_stock_quantity now t p
      = (t, create_response 400 [("error", bstr "No fields to update")]) := by
  simp [Lambda.update_stock_quantity, h1, h2, hf]

/-- C1: the claim says an update whose delta would drive stock below zero is
rejected with a 400 carrying the current stock and delta, leaving stock
unchanged.  The field-patch `update_stock_quantity` of
`src/inventory_lambda.py` violates this: on the apple item with stock 10 and
`stock_change = -15` it applies the write, stores `stock_quantity = -5` and
returns 200.  (The checking variant does enforce the guard; the spec
explicitly mandates it and calls the non-checking variant a defect.) -/
theorem C1_field_patch_applies_negative_stock :
    (Lambda.update_stock_quantity "t1" demoTable
      [("product_id", Val.str "apple"), ("stock_change", Val.num (-15))]).2.statusCode = 200
    ∧ storedStock (Lambda.update_stock_quantity "t1" demoTable
      [("product_id", Val.str "apple"), ("stock_change", Val.num (-15))]).1 (Val.str "apple")
      = some (Val.num (-5)) := by
  have h := root_stock_change_run "t1" demoTable (Val.str "apple") demoItem 10 (-15)
    (by decide) (by decide) (by decide)
  constructor
  · rw [h]
    rfl
  · rw [h]
    norm_num [storedStock, demoTable, demoItem, getItem, putItem, aset, aget]
    decide

/-- C4: the claim says an update-stock request on a missing `product_id`
fails with 404 before any mutating store call, creating no record.  The
field-patch `update_stock_quantity` of `src/inventory_lambda.py` performs no
fetch: with `new_quantity = 5` on the absent key `ghost` over an empty table
it upserts a fresh record and returns 200. -/
theorem C4_field_patch_creates_missing_item :
    (Lambda.update_stock_quantity "t4" []
      [("product_id", Val.str "ghost"), ("new_quantity", Val.num 5)]).2.statusCode = 200
    ∧ getItem (Lambda.update_stock_quantity "t4" []
      [("product_id", Val.str "ghost"), ("new_quantity", Val.num 5)]).1 (Val.str "ghost")
      = some [("product_id", Val.str "ghost"), ("stock_quantity", Val.num 5), ("updated_at", Val.str "t4")] := by
  decide

/-- C3 counterexample: the claim says PUT *or PATCH* dispatches to
update-stock.  On a PATCH event the router answers 405 Method not allowed,
while the update-stock handler on the same table and parameters would have
answered 200 — PATCH is not dispatched to update-stock. -/
theorem C3_patch_not_dispatched :
    (Lambda.lambda_handler "t3" demoWorld none demoEventPatch).2
      = create_response 405 [("error", bstr "Method not allowed")]
    ∧ (Lambda.update_stock_quantity "t3" demoTable
        [("table_name", Val.str "InventoryTable"), ("product_id", Val.str "apple"), ("new_quantity", Val.num 15)]).2.statusCode = 200 := by
  decide

/-- C5 counterexample: the claim includes a threshold of 0, but the warning
guard is `if threshold and ...`, so a stored `reorder_threshold = 0` is
treated as unset: updating the apple item to stock 0 (`new_quantity = 0`,
`0 ≤ 0` holds) succeeds with no warning attached. -/
theorem C5_zero_threshold_no_warning :
    (LambdaBuild.update_stock_quantity "t5" demoTableThr0
      [("product_id", Val.str "apple"), ("new_quantity", Val.num 0)]).2.statusCode = 200
    ∧ aget (LambdaBuild.update_stock_quantity "t5" demoTableThr0
      [("product_id", Val.str "apple"), ("new_quantity", Val.num 0)]).2.body "warning" = none := by
  have h := build_success_run "t5" demoTableThr0
    [("product_id", Val.str "apple"), ("new_quantity", Val.num 0)] (Val.str "apple") demoItemThr0 10 0
    (by decide) (by decide) (by decide) (by decide) (by decide) (by decide)
    (Or.inr ⟨by decide, by decide⟩) (by norm_num)
  constructor
  · rw [h]
    rfl
  · rw [h]
    norm_num [buildSuccess, demoItemThr0, aget, aset, bstr]
    decide

/-- C6 counterexample: the claim says a payload with neither `stock_change`
nor `new_quantity` fails with 400 and no write regardless of other fields.
The field-patch variant instead accepts `name` alone: it returns 200 and
writes the new name. -/
theorem C6_other_fields_updated_without_stock_keys :
    (Lambda.update_stock_quantity "t6" demoTable
      [("product_id", Val.str "apple"), ("name", Val.str "Gala")]).2.statusCode = 200
    ∧ storedAttr (Lambda.update_stock_quantity "t6" demoTable
      [("product_id", Val.str "apple"), ("name", Val.str "Gala")]).1 (Val.str "apple") "name"
      = some (Val.str "Gala") := by
  decide

/-- C10: for gateway-shape events the `queryStringParameters` section never
influences the handler result: the parameter map is built from the table
name and the parsed body only, so two events differing only in their query
section produce identical results (in particular list-items ignores a
category or max_items supplied only as query parameters). -/
theorem C10_query_params_ignored (now : String) (world : World) (env_table : Option String)
    (m pth : String) (pp : Option Obj) (qs1 qs2 : Option Obj) (b : Option BodyV) :
    Lambda.lambda_handler now world env_table ⟨m, pth, pp, qs1, b⟩
      = Lambda.lambda_handler now world env_table ⟨m, pth, pp, qs2, b⟩ := rfl

/-- C2: on an item with starting stock `c`, updating via `new_quantity = q`
and updating via `stock_change = q - c` produce identical results in both
update variants (same response, same stored table); both succeed or fail
together, and on success the stored stock is `q` (shown for the checking
variant, whose failure case is also characterized: `q < 0` gives a 400 with
no write).  The item's `reorder_threshold`, if present, is assumed numeric:
a truthy non-numeric threshold makes the checking variant raise in the
`Decimal(str(threshold))` comparison after its write (top-level 500). -/
theorem C2_delta_equivalence (now : String) (t : Table) (pid : String) (item : Obj) (c q : ℚ)
    (hfind : getItem t (Val.str pid) = some item)
    (hstock : aget item "stock_quantity" = some (Val.num c))
    (hthr : numericOrAbsent (aget item "reorder_threshold") = true)
    (hpid : pid ≠ "") :
    LambdaBuild.update_stock_quantity now t [("product_id", Val.str pid), ("new_quantity", Val.num q)]
      = LambdaBuild.update_stock_quantity now t [("product_id", Val.str pid), ("stock_change", Val.num (q - c))]
    ∧ Lambda.update_stock_quantity now t [("product_id", Val.str pid), ("new_quantity", Val.num q)]
      = Lambda.update_stock_quantity now t [("product_id", Val.str pid), ("stock_change", Val.num (q - c))]
    ∧ (0 ≤ q →
        (LambdaBuild.update_stock_quantity now t [("product_id", Val.str pid), ("new_quantity", Val.num q)]).2.statusCode = 200
        ∧ storedStock (LambdaBuild.update_stock_quantity now t [("product_id", Val.str pid), ("new_quantity", Val.num q)]).1 (Val.str pid)
            = some (Val.num q))
    ∧ (q < 0 →
        (LambdaBuild.update_stock_quantity now t [("product_id", Val.str pid), ("new_quantity", Val.num q)]).2.statusCode = 400
        ∧ (LambdaBuild.update_stock_quantity now t [("product_id", Val.str pid), ("new_quantity", Val.num q)]).1 = t) := by
  have hppQ : aget [(("product_id" : String), Val.str pid), (("new_quantity" : String), Val.num q)] "product_id"
      = some (Val.str pid) := by simp [aget]
  have hppD : aget [(("product_id" : String), Val.str pid), (("stock_change" : String), Val.num (q - c))] "product_id"
      = some (Val.str pid) := by simp [aget]
  have hpt : truthyV (Val.str pid) = true := by simp [truthyV, hpid]
  have hk : validKey (Val.str pid) = true := by simp [validKey, hpid]
  have hQd : pgetN [(("product_id" : String), Val.str pid), (("new_quantity" : String), Val.num q)] "stock_change" = none
      ∧ pgetN [(("product_id" : String), Val.str pid), (("new_quantity" : String), Val.num q)] "new_quantity"
        = some (Val.num q) := by
    refine ⟨?_, ?_⟩ <;> simp [pgetN, aget]
  have hDd : pgetN [(("product_id" : String), Val.str pid), (("stock_change" : String), Val.num (q - c))] "stock_change"
      = some (Val.num (q - c)) := by simp [pgetN, aget]
  have hkey : aget item "product_id" = some (Val.str pid) := getItem_key hfind
  have hroot : Lambda.update_stock_quantity now t [("product_id", Val.str pid), ("new_quantity", Val.num q)]
      = Lambda.update_stock_quantity now t [("product_id", Val.str pid), ("stock_change", Val.num (q - c))] := by
    rw [root_new_quantity_run now t (Val.str pid) item q hfind hk,
      root_stock_change_run now t (Val.str pid) item c (q - c) hfind hstock hk,
      show c + (q - c) = q from by ring]
  by_cases hq : 0 ≤ q
  · have e1 := build_success_run now t _ (Val.str pid) item c q hppQ hpt hk hfind hstock hthr (Or.inr hQd) hq
    have e2 := build_success_run now t _ (Val.str pid) item c q hppD hpt hk hfind hstock hthr (Or.inl hDd) hq
    refine ⟨e1.trans e2.symm, hroot, fun _ => ?_, fun hlt => absurd hlt (not_lt.2 hq)⟩
    rw [e1]
    refine ⟨rfl, ?_⟩
    show storedStock (putItem t (Val.str pid)
      (aset (aset item "stock_quantity" (Val.num q)) "updated_at" (Val.str now))) (Val.str pid)
      = some (Val.num q)
    have hnewkey : aget (aset (aset item "stock_quantity" (Val.num q)) "updated_at" (Val.str now)) "product_id"
        = some (Val.str pid) := by
      rw [aget_aset_ne _ _ _ _ (by decide), aget_aset_ne _ _ _ _ (by decide), hkey]
    rw [storedStock, getItem_putItem_self hnewkey, Option.some_bind,
      aget_aset_ne _ _ _ _ (by decide), aget_aset_self]
  · have hq' : q < 0 := lt_of_not_ge hq
    have e1 := build_negative_run now t _ (Val.str pid) item c q hppQ hpt hk hfind hstock (Or.inr hQd) hq'
    have e2 := build_negative_run now t _ (Val.str pid) item c q hppD hpt hk hfind hstock (Or.inl hDd) hq'
    exact ⟨e1.trans e2.symm, hroot, fun hge => absurd hq' (not_lt.2 hge), fun _ => by rw [e1]; exact ⟨rfl, rfl⟩⟩

/-- Witness for C2 at the apple item (stock 10, target 4): both variants
agree between `new_quantity = 4` and `stock_change = -6`, and the checking
variant stores stock 4. -/
theorem C2_delta_equivalence_witness :
    LambdaBuild.update_stock_quantity "w2" demoTable [("product_id", Val.str "apple"), ("new_quantity", Val.num 4)]
      = LambdaBuild.update_stock_quantity "w2" demoTable [("product_id", Val.str "apple"), ("stock_change", Val.num (4 - 10))]
    ∧ Lambda.update_stock_quantity "w2" demoTable [("product_id", Val.str "apple"), ("new_quantity", Val.num 4)]
      = Lambda.update_stock_quantity "w2" demoTable [("product_id", Val.str "apple"), ("stock_change", Val.num (4 - 10))]
    ∧ (0 ≤ (4 : ℚ) →
        (LambdaBuild.update_stock_quantity "w2" demoTable [("product_id", Val.str "apple"), ("new_quantity", Val.num 4)]).2.statusCode = 200
        ∧ storedStock (LambdaBuild.update_stock_quantity "w2" demoTable [("product_id", Val.str "apple"), ("new_quantity", Val.num 4)]).1 (Val.str "apple")
            = some (Val.num 4))
    ∧ ((4 : ℚ) < 0 →
        (LambdaBuild.update_stock_quantity "w2" demoTable [("product_id", Val.str "apple"), ("new_quantity", Val.num 4)]).2.statusCode = 400
        ∧ (LambdaBuild.update_stock_quantity "w2" demoTable [("product_id", Val.str "apple"), ("new_quantity", Val.num 4)]).1 = demoTable) :=
  C2_delta_equivalence "w2" demoTable "apple" demoItem 10 4 (by decide) (by decide) (by decide) (by decide)

theorem storedStock_buildSuccess (now : String) (t : Table) (pid : Val) (item : Obj) (c n : ℚ)
    (hkey : aget item "product_id" = some pid) :
    storedStock (buildSuccess now t pid item c n).1 pid = some (Val.num n) := by
  have hnewkey : aget (aset (aset item "stock_quantity" (Val.num n)) "updated_at" (Val.str now)) "product_id"
      = some pid := by
    rw [aget_aset_ne _ _ _ _ (by decide), aget_aset_ne _ _ _ _ (by decide), hkey]
  show storedStock (putItem t pid
    (aset (aset item "stock_quantity" (Val.num n)) "updated_at" (Val.str now))) pid = some (Val.num n)
  rw [storedStock, getItem_putItem_self hnewkey, Option.some_bind,
    aget_aset_ne _ _ _ _ (by decide), aget_aset_self]

/-- C5 (amended): for every successful stock update by the checking engine
on an item whose `reorder_threshold` is set to a *nonzero* value `τ`, the
success result carries a low-stock warning iff the new stock `n` satisfies
`n ≤ τ`, and the warning never blocks the write (the status is 200 and the
new stock is stored regardless).  A threshold of 0 is falsy in the guard
`if threshold and ...` and behaves as unset (see the counterexample). -/
theorem C5_threshold_warning (now : String) (t : Table) (p : Obj) (pid : String) (item : Obj) (c n τ : ℚ)
    (hpp : aget p "product_id" = some (Val.str pid)) (hpid : pid ≠ "")
    (hfind : getItem t (Val.str pid) = some item)
    (hstock : aget item "stock_quantity" = some (Val.num c))
    (hthr : aget item "reorder_threshold" = some (Val.num τ)) (ht : τ ≠ 0)
    (hdelta : pgetN p "stock_change" = some (Val.num (n - c))
      ∨ (pgetN p "stock_change" = none ∧ pgetN p "new_quantity" = some (Val.num n)))
    (hn : 0 ≤ n) :
    (LambdaBuild.update_stock_quantity now t p).2.statusCode = 200
    ∧ ((aget (LambdaBuild.update_stock_quantity now t p).2.body "warning").isSome = true ↔ n ≤ τ)
    ∧ storedStock (LambdaBuild.update_stock_quantity now t p).1 (Val.str pid) = some (Val.num n) := by
  have hpt : truthyV (Val.str pid) = true := by simp [truthyV, hpid]
  have e := build_success_run now t p (Val.str pid) item c n hpp hpt
    (by simp [validKey, hpid]) hfind hstock (by simp [numericOrAbsent, hthr]) hdelta hn
  rw [e]
  refine ⟨rfl, ?_, storedStock_buildSuccess now t (Val.str pid) item c n (getItem_key hfind)⟩
  by_cases hw : n ≤ τ <;> simp [buildSuccess, hthr, ht, hw, aget, bstr]

/-- Witness for C5 at the apple item with threshold 5: updating to stock 5
succeeds, stores 5 and carries a warning (`5 ≤ 5`). -/
theorem C5_threshold_warning_witness :
    (LambdaBuild.update_stock_quantity "w5" demoTableThr5
      [("product_id", Val.str "apple"), ("new_quantity", Val.num 5)]).2.statusCode = 200
    ∧ ((aget (LambdaBuild.update_stock_quantity "w5" demoTableThr5
        [("product_id", Val.str "apple"), ("new_quantity", Val.num 5)]).2.body "warning").isSome = true
      ↔ (5 : ℚ) ≤ 5)
    ∧ storedStock (LambdaBuild.update_stock_quantity "w5" demoTableThr5
        [("product_id", Val.str "apple"), ("new_quantity", Val.num 5)]).1 (Val.str "apple")
      = some (Val.num 5) :=
  C5_threshold_warning "w5" demoTableThr5
    [("product_id", Val.str "apple"), ("new_quantity", Val.num 5)] "apple" demoItemThr5 10 5 5
    (by decide) (by decide) (by decide) (by decide) (by decide) (by norm_num)
    (Or.inr ⟨by decide, by decide⟩) (by norm_num)

theorem fieldsPreserved_putItem (now : String) (t : Table) (pid : Val) (item : Obj) (n : ℚ)
    (hkey : aget item "product_id" = some pid) :
    fieldsPreserved (putItem t pid
      (aset (aset item "stock_quantity" (Val.num n)) "updated_at" (Val.str now))) pid item n now := by
  have hnewkey : aget (aset (aset item "stock_quantity" (Val.num n)) "updated_at" (Val.str now)) "product_id"
      = some pid := by
    rw [aget_aset_ne _ _ _ _ (by decide), aget_aset_ne _ _ _ _ (by decide), hkey]
  unfold fieldsPreserved
  rw [getItem_putItem_self hnewkey]
  refine ⟨?_, ?_, ?_, ?_, ?_, ?_, ?_, ?_, ?_⟩
  · rw [aget_aset_ne _ _ _ _ (by decide), aget_aset_self]
  · rw [aget_aset_self]
  · rw [aget_aset_ne _ _ _ _ (by decide), aget_aset_ne _ _ _ _ (by decide)]
  · rw [aget_aset_ne _ _ _ _ (by decide), aget_aset_ne _ _ _ _ (by decide)]
  · rw [aget_aset_ne _ _ _ _ (by decide), aget_aset_ne _ _ _ _ (by decide)]
  · rw [aget_aset_ne _ _ _ _ (by decide), aget_aset_ne _ _ _ _ (by decide)]
  · rw [aget_aset_ne _ _ _ _ (by decide), aget_aset_ne _ _ _ _ (by decide)]
  · rw [aget_aset_ne _ _ _ _ (by decide), aget_aset_ne _ _ _ _ (by decide)]
  · rw [aget_aset_ne _ _ _ _ (by decide), aget_aset_ne _ _ _ _ (by decide)]

/-- C9: a successful pure stock update (payload holding only `product_id`
and one of `stock_change`/`new_quantity`) changes exactly `stock_quantity`
and `updated_at` of the stored item: `product_id`, `name`, `price`,
`category`, `description`, `reorder_threshold` and `created_at` are
unchanged and `updated_at` is refreshed.  Shown for both update variants
and both payload forms (the checking variant succeeds when the resulting
stock is non-negative; the field-patch variant succeeds unconditionally).
The item's `reorder_threshold`, if present, is assumed numeric — otherwise
the checking variant 500s in the threshold comparison after its write. -/
theorem C9_pure_update_frame (now : String) (t : Table) (pid : String) (item : Obj) (c x : ℚ)
    (hfind : getItem t (Val.str pid) = some item)
    (hstock : aget item "stock_quantity" = some (Val.num c))
    (hthr : numericOrAbsent (aget item "reorder_threshold") = true)
    (hpid : pid ≠ "") :
    (0 ≤ c + x →
      (LambdaBuild.update_stock_quantity now t [("product_id", Val.str pid), ("stock_change", Val.num x)]).2.statusCode = 200
      ∧ fieldsPreserved (LambdaBuild.update_stock_quantity now t [("product_id", Val.str pid), ("stock_change", Val.num x)]).1
          (Val.str pid) item (c + x) now)
    ∧ (0 ≤ x →
      (LambdaBuild.update_stock_quantity now t [("product_id", Val.str pid), ("new_quantity", Val.num x)]).2.statusCode = 200
      ∧ fieldsPreserved (LambdaBuild.update_stock_quantity now t [("product_id", Val.str pid), ("new_quantity", Val.num x)]).1
          (Val.str pid) item x now)
    ∧ ((Lambda.update_stock_quantity now t [("product_id", Val.str pid), ("stock_change", Val.num x)]).2.statusCode = 200
      ∧ fieldsPreserved (Lambda.update_stock_quantity now t [("product_id", Val.str pid), ("stock_change", Val.num x)]).1
          (Val.str pid) item (c + x) now)
    ∧ ((Lambda.update_stock_quantity now t [("product_id", Val.str pid), ("new_quantity", Val.num x)]).2.statusCode = 200
      ∧ fieldsPreserved (Lambda.update_stock_quantity now t [("product_id", Val.str pid), ("new_quantity", Val.num x)]).1
          (Val.str pid) item x now) := by
  have hkey : aget item "product_id" = some (Val.str pid) := getItem_key hfind
  have hpt : truthyV (Val.str pid) = true := by simp [truthyV, hpid]
  have harith : c + x - c = x := by ring
  refine ⟨fun h => ?_, fun h => ?_, ?_, ?_⟩
  · have hd : pgetN [(("product_id" : String), Val.str pid), (("stock_change" : String), Val.num x)] "stock_change"
        = some (Val.num (c + x - c)) := by simp [pgetN, aget, harith]
    have e := build_success_run now t _ (Val.str pid) item c (c + x) (by simp [aget]) hpt
      (by simp [validKey, hpid]) hfind hstock hthr (Or.inl hd) h
    rw [e]
    exact ⟨rfl, fieldsPreserved_putItem now t (Val.str pid) item (c + x) hkey⟩
  · have hd : pgetN [(("product_id" : String), Val.str pid), (("new_quantity" : String), Val.num x)] "stock_change" = none
        ∧ pgetN [(("product_id" : String), Val.str pid), (("new_quantity" : String), Val.num x)] "new_quantity"
          = some (Val.num x) := by
      refine ⟨?_, ?_⟩ <;> simp [pgetN, aget]
    have e := build_success_run now t _ (Val.str pid) item c x (by simp [aget]) hpt
      (by simp [validKey, hpid]) hfind hstock hthr (Or.inr hd) h
    rw [e]
    exact ⟨rfl, fieldsPreserved_putItem now t (Val.str pid) item x hkey⟩
  · have e := root_stock_change_run now t (Val.str pid) item c x hfind hstock (by simp [validKey, hpid])
    rw [e]
    exact ⟨rfl, fieldsPreserved_putItem now t (Val.str pid) item (c + x) hkey⟩
  · have e := root_new_quantity_run now t (Val.str pid) item x hfind (by simp [validKey, hpid])
    rw [e]
    exact ⟨rfl, fieldsPreserved_putItem now t (Val.str pid) item x hkey⟩

/-- Witness for C9 at the apple item (stock 10, delta 3): all four runs
succeed and preserve every field but `stock_quantity`/`updated_at`. -/
theorem C9_pure_update_frame_witness :
    ((0 : ℚ) ≤ 10 + 3 →
      (LambdaBuild.update_stock_quantity "w9" demoTable [("product_id", Val.str "apple"), ("stock_change", Val.num 3)]).2.statusCode = 200
      ∧ fieldsPreserved (LambdaBuild.update_stock_quantity "w9" demoTable [("product_id", Val.str "apple"), ("stock_change", Val.num 3)]).1
          (Val.str "apple") demoItem (10 + 3) "w9")
    ∧ ((0 : ℚ) ≤ 3 →
      (LambdaBuild.update_stock_quantity "w9" demoTable [("product_id", Val.str "apple"), ("new_quantity", Val.num 3)]).2.statusCode = 200
      ∧ fieldsPreserved (LambdaBuild.update_stock_quantity "w9" demoTable [("product_id", Val.str "apple"), ("new_quantity", Val.num 3)]).1
          (Val.str "apple") demoItem 3 "w9")
    ∧ ((Lambda.update_stock_quantity "w9" demoTable [("product_id", Val.str "apple"), ("stock_change", Val.num 3)]).2.statusCode = 200
      ∧ fieldsPreserved (Lambda.update_stock_quantity "w9" demoTable [("product_id", Val.str "apple"), ("stock_change", Val.num 3)]).1
          (Val.str "apple") demoItem (10 + 3) "w9")
    ∧ ((Lambda.update_stock_quantity "w9" demoTable [("product_id", Val.str "apple"), ("new_quantity", Val.num 3)]).2.statusCode = 200
      ∧ fieldsPreserved (Lambda.update_stock_quantity "w9" demoTable [("product_id", Val.str "apple"), ("new_quantity", Val.num 3)]).1
          (Val.str "apple") demoItem 3 "w9") :=
  C9_pure_update_frame "w9" demoTable "apple" demoItem 10 3 (by decide) (by decide) (by decide) (by decide)

/-- C6 (amended): for every update-stock request carrying neither
`stock_change` nor `new_quantity`: the checking engine fails with the
missing-parameter 400 and performs no write regardless of other fields;
the field-patch variant fails (400 `No fields to update`, no write) exactly
when the payload also carries no effective `name`/`category`/`price`/
`description` — otherwise it updates those fields (see the
counterexample). -/
theorem C6_missing_stock_params (now : String) (t : Table) (p : Obj) (pid : Val)
    (hpp : aget p "product_id" = some pid) (hpt : truthyV pid = true)
    (h1 : pgetN p "stock_change" = none) (h2 : pgetN p "new_quantity" = none) :
    LambdaBuild.update_stock_quantity now t p
      = (t, create_response 400 [("error", bstr "Missing stock_change or new_quantity for stock update")])
    ∧ (["name", "category", "price", "description"].filterMap (Lambda.mkField p) = [] →
        Lambda.update_stock_quantity now t p
          = (t, create_response 400 [("error", bstr "No fields to update")])) :=
  ⟨build_missing_run now t p pid hpp hpt h1 h2, fun hf => root_nofields_run now t p h1 h2 hf⟩

/-- Witness for C6: a payload with `product_id`, a null `price` and an empty
`description` (no stock keys, no effective other fields) is rejected by
both variants with a 400 and no write. -/
theorem C6_missing_stock_params_witness :
    LambdaBuild.update_stock_quantity "w6" demoTable
      [("product_id", Val.str "apple"), ("price", Val.null), ("description", Val.str "")]
      = (demoTable, create_response 400 [("error", bstr "Missing stock_change or new_quantity for stock update")])
    ∧ (["name", "category", "price", "description"].filterMap
        (Lambda.mkField [("product_id", Val.str "apple"), ("price", Val.null), ("description", Val.str "")]) = [] →
        Lambda.update_stock_quantity "w6" demoTable
          [("product_id", Val.str "apple"), ("price", Val.null), ("description", Val.str "")]
          = (demoTable, create_response 400 [("error", bstr "No fields to update")])) :=
  C6_missing_stock_params "w6" demoTable
    [("product_id", Val.str "apple"), ("price", Val.null), ("description", Val.str "")]
    (Val.str "apple") (by decide) (by decide) (by decide) (by decide)

theorem add_success_run (now : String) (t : Table) (item : Obj) (pid : String)
    (hpp : aget item "product_id" = some (Val.str pid)) (hpid : pid ≠ "")
    (hbool : hasBoolField item = false)
    (h4 : ["product_id", "name", "price", "stock_quantity"].filter (fun f => (aget item f).isNone) = [])
    (hfresh : getItem t (Val.str pid) = none) :
    Lambda.add_inventory_item now t item
      = (t ++ [aset (aset (item.map (fun kv => (kv.1, decimalizeVal kv.2))) "created_at" (Val.str now)) "updated_at" (Val.str now)],
         create_response 201 [("message", bstr "Inventory item added successfully"),
           ("item", BVal.obj (aset (aset (item.map (fun kv => (kv.1, decimalizeVal kv.2))) "created_at" (Val.str now)) "updated_at" (Val.str now)))]) := by
  have hne : item ≠ [] := aget_ne_nil hpp
  have hpid2 : aget (aset (aset (item.map (fun kv => (kv.1, decimalizeVal kv.2))) "created_at" (Val.str now)) "updated_at" (Val.str now)) "product_id"
      = some (Val.str pid) := by
    rw [aget_aset_ne _ _ _ _ (by decide), aget_aset_ne _ _ _ _ (by decide), aget_map_decimalize, hpp]
    rfl
  simp [Lambda.add_inventory_item, hne, hbool, h4, hpid2, hfresh, putItem_not_found _ hfresh,
    validKey, hpid]

theorem add_conflict_run (now : String) (t : Table) (item2 it0 : Obj) (pid : String)
    (hpp2 : aget item2 "product_id" = some (Val.str pid)) (hpid : pid ≠ "")
    (hbool2 : hasBoolField item2 = false)
    (h42 : ["product_id", "name", "price", "stock_quantity"].filter (fun f => (aget item2 f).isNone) = [])
    (hfound : getItem t (Val.str pid) = some it0) :
    Lambda.add_inventory_item now t item2
      = (t, create_response 409 [("error", bstr ("Item with product_id " ++ pid ++ " already exists"))]) := by
  have hne : item2 ≠ [] := aget_ne_nil hpp2
  have hpid2 : aget (aset (aset (item2.map (fun kv => (kv.1, decimalizeVal kv.2))) "created_at" (Val.str now)) "updated_at" (Val.str now)) "product_id"
      = some (Val.str pid) := by
    rw [aget_aset_ne _ _ _ _ (by decide), aget_aset_ne _ _ _ _ (by decide), aget_map_decimalize, hpp2]
    rfl
  simp [Lambda.add_inventory_item, hne, hbool2, h42, hpid2, hfound, validKey, hpid, valStr]

/-- C7: adding an item with all required fields under a fresh nonempty
`product_id` returns 201; immediately adding any item under the same
`product_id` again returns 409 Conflict and leaves the table (hence the
stored item) unchanged.  Payloads are assumed free of boolean-valued
fields, whose `Decimal(str(...))` coercion raises before the store call
(500, no write), and the key nonempty, which DynamoDB would reject. -/
theorem C7_creation_uniqueness (now now2 : String) (t : Table) (item item2 : Obj) (pid : String)
    (hpp : aget item "product_id" = some (Val.str pid)) (hpid : pid ≠ "")
    (hbool : hasBoolField item = false) (hbool2 : hasBoolField item2 = false)
    (hname : (aget item "name").isSome = true)
    (hprice : (aget item "price").isSome = true)
    (hstock : (aget item "stock_quantity").isSome = true)
    (hfresh : getItem t (Val.str pid) = none)
    (hpp2 : aget item2 "product_id" = some (Val.str pid))
    (hname2 : (aget item2 "name").isSome = true)
    (hprice2 : (aget item2 "price").isSome = true)
    (hstock2 : (aget item2 "stock_quantity").isSome = true) :
    (Lambda.add_inventory_item now t item).2.statusCode = 201
    ∧ (Lambda.add_inventory_item now2 (Lambda.add_inventory_item now t item).1 item2).2.statusCode = 409
    ∧ (Lambda.add_inventory_item now2 (Lambda.add_inventory_item now t item).1 item2).1
        = (Lambda.add_inventory_item now t item).1 := by
  obtain ⟨nv, hnv⟩ := Option.isSome_iff_exists.mp hname
  obtain ⟨pv, hpv⟩ := Option.isSome_iff_exists.mp hprice
  obtain ⟨sv, hsv⟩ := Option.isSome_iff_exists.mp hstock
  obtain ⟨nv2, hnv2⟩ := Option.isSome_iff_exists.mp hname2
  obtain ⟨pv2, hpv2⟩ := Option.isSome_iff_exists.mp hprice2
  obtain ⟨sv2, hsv2⟩ := Option.isSome_iff_exists.mp hstock2
  have h4 : ["product_id", "name", "price", "stock_quantity"].filter (fun f => (aget item f).isNone) = [] := by
    simp [hpp, hnv, hpv, hsv]
  have h42 : ["product_id", "name", "price", "stock_quantity"].filter (fun f => (aget item2 f).isNone) = [] := by
    simp [hpp2, hnv2, hpv2, hsv2]
  have e1 := add_success_run now t item pid hpp hpid hbool h4 hfresh
  have hkeyS : aget (aset (aset (item.map (fun kv => (kv.1, decimalizeVal kv.2))) "created_at" (Val.str now)) "updated_at" (Val.str now)) "product_id"
      = some (Val.str pid) := by
    rw [aget_aset_ne _ _ _ _ (by decide), aget_aset_ne _ _ _ _ (by decide), aget_map_decimalize, hpp]
    rfl
  have hfound2 : getItem
      (t ++ [aset (aset (item.map (fun kv => (kv.1, decimalizeVal kv.2))) "created_at" (Val.str now)) "updated_at" (Val.str now)])
      (Val.str pid)
      = some (aset (aset (item.map (fun kv => (kv.1, decimalizeVal kv.2))) "created_at" (Val.str now)) "updated_at" (Val.str now)) := by
    rw [getItem_append_right hfresh]
    simp [getItem, hkeyS]
  have h1' : (Lambda.add_inventory_item now t item).1
      = t ++ [aset (aset (item.map (fun kv => (kv.1, decimalizeVal kv.2))) "created_at" (Val.str now)) "updated_at" (Val.str now)] := by
    rw [e1]
  have e2 := add_conflict_run now2
    (t ++ [aset (aset (item.map (fun kv => (kv.1, decimalizeVal kv.2))) "created_at" (Val.str now)) "updated_at" (Val.str now)])
    item2 _ pid hpp2 hpid hbool2 h42 hfound2
  refine ⟨by rw [e1]; rfl, by rw [h1', e2]; rfl, by rw [h1', e2]⟩

/-- Witness for C7: adding the apple item to an empty table returns 201;
adding it again returns 409 with the table unchanged. -/
theorem C7_creation_uniqueness_witness :
    (Lambda.add_inventory_item "w7" [] demoItem).2.statusCode = 201
    ∧ (Lambda.add_inventory_item "w7b" (Lambda.add_inventory_item "w7" [] demoItem).1 demoItem).2.statusCode = 409
    ∧ (Lambda.add_inventory_item "w7b" (Lambda.add_inventory_item "w7" [] demoItem).1 demoItem).1
        = (Lambda.add_inventory_item "w7" [] demoItem).1 :=
  C7_creation_uniqueness "w7" "w7b" [] demoItem demoItem "apple"
    (by decide) (by decide) (by decide) (by decide) (by decide) (by decide)
    (by decide) (by decide) (by decide) (by decide) (by decide) (by decide)

/-- C3 (amended): for gateway events with a resolvable table name, the
router dispatches GET with an identifier to get-item, GET without one to
list-items, POST (with a JSON-string body) to add-item, PUT to
update-stock and DELETE to remove-item, answers OPTIONS with a 200 no-op,
and answers every other method — including PATCH — with a 405 client
error rather than an unhandled failure.  PATCH is *not* routed to
update-stock (see the counterexample). -/
theorem C3_router_dispatch (now : String) (world : World) (env_table : Option String)
    (b : Obj) (tn pid pth : String) (qs : Option Obj) (m : String)
    (htn : aget b "table_name" = some (Val.str tn)) (htn' : tn ≠ "") (hpid : pid ≠ "")
    (hm1 : m ≠ "GET") (hm2 : m ≠ "POST") (hm3 : m ≠ "PUT") (hm4 : m ≠ "DELETE") (hm5 : m ≠ "OPTIONS") :
    Lambda.lambda_handler now world env_table ⟨"GET", pth, some [("product_id", Val.str pid)], qs, some (BodyV.jstr b)⟩
      = (world, Lambda.get_inventory_item (world tn)
          (aset (b.foldl (fun acc kv => aset acc kv.1 kv.2) [("table_name", Val.str tn)]) "product_id" (Val.str pid)))
    ∧ Lambda.lambda_handler now world env_table ⟨"GET", "inventory", none, qs, some (BodyV.jstr b)⟩
      = (world, Lambda.list_inventory_items (world tn)
          (b.foldl (fun acc kv => aset acc kv.1 kv.2) [("table_name", Val.str tn)]))
    ∧ Lambda.lambda_handler now world env_table ⟨"POST", pth, some [("product_id", Val.str pid)], qs, some (BodyV.jstr b)⟩
      = (fun n => if n = tn then (Lambda.add_inventory_item now (world tn) b).1 else world n,
         (Lambda.add_inventory_item now (world tn) b).2)
    ∧ Lambda.lambda_handler now world env_table ⟨"PUT", pth, some [("product_id", Val.str pid)], qs, some (BodyV.jstr b)⟩
      = (fun n => if n = tn then (Lambda.update_stock_quantity now (world tn)
            (aset (b.foldl (fun acc kv => aset acc kv.1 kv.2) [("table_name", Val.str tn)]) "product_id" (Val.str pid))).1
          else world n,
         (Lambda.update_stock_quantity now (world tn)
            (aset (b.foldl (fun acc kv => aset acc kv.1 kv.2) [("table_name", Val.str tn)]) "product_id" (Val.str pid))).2)
    ∧ Lambda.lambda_handler now world env_table ⟨"DELETE", pth, some [("product_id", Val.str pid)], qs, some (BodyV.jstr b)⟩
      = (fun n => if n = tn then (Lambda.remove_inventory_item (world tn)
            (aset (b.foldl (fun acc kv => aset acc kv.1 kv.2) [("table_name", Val.str tn)]) "product_id" (Val.str pid))).1
          else world n,
         (Lambda.remove_inventory_item (world tn)
            (aset (b.foldl (fun acc kv => aset acc kv.1 kv.2) [("table_name", Val.str tn)]) "product_id" (Val.str pid))).2)
    ∧ Lambda.lambda_handler now world env_table ⟨"OPTIONS", pth, some [("product_id", Val.str pid)], qs, some (BodyV.jstr b)⟩
      = (world, create_response 200 [("message", bstr "CORS preflight request handled successfully")])
    ∧ Lambda.lambda_handler now world env_table ⟨m, pth, some [("product_id", Val.str pid)], qs, some (BodyV.jstr b)⟩
      = (world, create_response 405 [("error", bstr "Method not allowed")]) := by
  have hparts : pathParts "inventory" = ["inventory"] := by decide
  refine ⟨?_, ?_, ?_, ?_, ?_, ?_, ?_⟩ <;>
    simp [Lambda.lambda_handler, aget, truthyO, truthyV, htn, htn', hpid, hparts,
      hm1, hm2, hm3, hm4, hm5]

/-- Witness for C3: a PATCH event shaped like the repository test event is
answered with 405 Method not allowed. -/
theorem C3_router_dispatch_witness :
    Lambda.lambda_handler "w3" demoWorld none
      ⟨"PATCH", "/inventory/apple", some [("product_id", Val.str "apple")], none,
       some (BodyV.jstr [("table_name", Val.str "InventoryTable")])⟩
      = (demoWorld, create_response 405 [("error", bstr "Method not allowed")]) :=
  (C3_router_dispatch "w3" demoWorld none [("table_name", Val.str "InventoryTable")]
    "InventoryTable" "apple" "/inventory/apple" none "PATCH"
    (by decide) (by decide) (by decide) (by decide) (by decide) (by decide) (by decide)
    (by decide)).2.2.2.2.2.2
